import Mathlib

/-!
Verification of the configuration / settings-resolution subsystem and the
service-call guard of the ei CLI toolkit.  The production package is not
shipped in this source tree (only its test suite is), so each operation is
modelled from the specification, adjusted where the repository's own tests
pin a more precise behaviour.  Machine-level details (file IO, wall-clock
sleeping, the HTTP client) are represented by explicit parameters: the file
system is a partial map from paths to contents, the remote call is a thunk
indexed by the attempt number, and the rate limiter's clock is a natural
number of ticks.
-/

namespace EI

/-- Substring containment of a pattern in a string, stated by explicit
decomposition into a left part, the pattern, and a right part. -/
def strContains (s pat : String) : Prop := ∃ l r, s = l ++ pat ++ r

/-- Helper: a string built around a pattern contains that pattern. -/
theorem strContains_build (l pat r : String) : strContains (l ++ pat ++ r) pat :=
  ⟨l, r, rfl⟩

/-- Helper: every string contains itself. -/
theorem strContains_self (pat : String) : strContains pat pat :=
  ⟨"", "", by rw [String.empty_append, String.append_empty]⟩

/-- Helper: containment is preserved by appending on the right. -/
theorem strContains_appendl {s : String} {pat : String} (t : String)
    (h : strContains s pat) : strContains (s ++ t) pat := by
  obtain ⟨l, r, hs⟩ := h
  exact ⟨l, r ++ t, by rw [hs, String.append_assoc (l ++ pat) r t]⟩

/-- Helper: containment is preserved by prepending on the left. -/
theorem strContains_appendr {t : String} {pat : String} (s : String)
    (h : strContains t pat) : strContains (s ++ t) pat := by
  obtain ⟨l, r, ht⟩ := h
  refine ⟨s ++ l, r, ?_⟩
  rw [ht, ← String.append_assoc s (l ++ pat) r, ← String.append_assoc s l pat]

/-! ## Configuration section models

Modelled from the spec: the pydantic config models of the `ei_cli.config`
module (absent from this tree), section 3 of the spec, with field names,
default values, bounds and enumerated sets taken from
`src/tests/python/config/test_config.py`. -/

/-- Enumerated set of browsers accepted for cookie extraction. -/
def cookie_browsers : List String :=
  ["brave", "chrome", "chromium", "edge", "firefox", "opera", "safari", "vivaldi"]

/-- YouTube section of the configuration snapshot. -/
structure YouTubeConfig where
  cookies_browser : Option String
  cookies_file : Option String
  max_fragment_failures : Nat
  retry_attempts : Nat
  timeout_seconds : Nat
deriving Repr, DecidableEq

/-- Validity of an optional browser name against the closed browser set. -/
def browserOk : Option String → Bool
  | none => true
  | some b => cookie_browsers.contains b

/-- Modelled from the spec: construction-time validation of the YouTube
section; a bounded field outside its range aborts construction with an error
naming the field, it is never clamped. -/
def mkYouTubeConfig (cb cf : Option String) (mff ra ts : Nat) :
    Except String YouTubeConfig :=
  if browserOk cb = false then
    Except.error "cookies_browser: value is not a valid enumeration member"
  else if 1 ≤ mff ∧ mff ≤ 50 then
    Except.ok ⟨cb, cf, mff, ra, ts⟩
  else
    Except.error "max_fragment_failures: value must be between 1 and 50"

/-- Transcription section of the configuration snapshot. -/
structure TranscriptionConfig where
  auto_chunk : Bool
  max_chunk_size_mb : Nat
  chunk_duration_seconds : Nat
  language : Option String
  save_intermediate : Bool
deriving Repr, DecidableEq

/-- Validity of an optional ISO-639-1 language code: exactly two characters. -/
def languageOk : Option String → Bool
  | none => true
  | some code => code.length == 2

/-- Lowercasing normalization applied to a validated language code. -/
def normalizeLanguage : Option String → Option String
  | none => none
  | some code => some code.toLower

/-- Modelled from the spec: construction-time validation of the transcription
section; the chunk size is bounded to [5, 50] MB and the language code is
normalized to lowercase. -/
def mkTranscriptionConfig (ac : Bool) (mcs cds : Nat) (lang : Option String)
    (si : Bool) : Except String TranscriptionConfig :=
  if 5 ≤ mcs ∧ mcs ≤ 50 then
    if languageOk lang = false then
      Except.error "language: must be exactly 2 characters"
    else
      Except.ok ⟨ac, mcs, cds, normalizeLanguage lang, si⟩
  else
    Except.error "max_chunk_size_mb: value must be between 5 and 50"

/-- Enumerated voice set accepted by the TTS configuration section. -/
def tts_config_voices : List String :=
  ["alloy", "echo", "fable", "onyx", "nova", "shimmer"]

/-- TTS section of the configuration snapshot; the speed is an exact rational
so that the bounds 0.25 and 4.0 are represented without rounding. -/
structure TTSConfig where
  voice : String
  model : String
  speed : ℚ
deriving Repr, DecidableEq

/-- Modelled from the spec: construction-time validation of the TTS section;
the speed is bounded to [0.25, 4.0] and the voice to a closed set. -/
def mkTTSConfig (voice model : String) (speed : ℚ) : Except String TTSConfig :=
  if tts_config_voices.contains voice = false then
    Except.error "voice: value is not a valid enumeration member"
  else if 1/4 ≤ speed ∧ speed ≤ 4 then
    Except.ok ⟨voice, model, speed⟩
  else
    Except.error "speed: value must be between 0.25 and 4.0"

/-! ## Layered field resolution -/

/-- Modelled from the spec: resolution of one configuration field from its
layered sources.  Spec section 4.1 lists the layers environment, dotenv
file, explicit config file and default; the repository's own tests
(`TestSettings.test_yaml_loading`) pin that values read from an explicitly
supplied config file are passed as constructor arguments, which take
precedence over the environment, while real environment variables take
precedence over `.env` entries (dotenv loading never overrides an already
set variable, `TestConfigIntegration.test_env_vars_override_env_file`). -/
def resolveField (fileVal envVal dotenvVal : Option String)
    (defaultVal : String) : String :=
  match fileVal, envVal, dotenvVal with
  | some v, _, _ => v
  | none, some v, _ => v
  | none, none, some v => v
  | none, none, none => defaultVal

/-- C1 counterexample: with the environment variable set to sk-test and the
explicitly supplied config file carrying sk-yaml-key for the same field, the
resolved snapshot holds the file value, not the environment value, so the
claimed environment-over-file precedence fails at this concrete input. -/
theorem env_over_file_precedence_false :
    resolveField (some "sk-yaml-key") (some "sk-test") none "" ≠ "sk-test" := by
  decide

/-- C1 (amended): a field set via an explicitly supplied config file resolves
to the file value regardless of the environment, and a field set both in a
`.env` file and as a real environment variable resolves to the real
environment variable's value. -/
theorem config_field_precedence (fv ev : String) (envVal dotenvVal : Option String)
    (d : String) :
    resolveField (some fv) envVal dotenvVal d = fv ∧
    resolveField none (some ev) dotenvVal d = ev := by
  exact ⟨rfl, rfl⟩

/-! ## Bounded numeric fields (C5) -/

/-- C5: each bounded numeric field accepts exactly the values of its stated
range, storing an accepted value unchanged, and construction at one unit
outside either boundary is a validation error, never a silent clamp. -/
theorem bounded_fields_validate :
    (∀ mff : Nat,
      mkYouTubeConfig none none mff 3 300 = Except.ok ⟨none, none, mff, 3, 300⟩ ↔
        1 ≤ mff ∧ mff ≤ 50) ∧
    (∀ mcs : Nat,
      mkTranscriptionConfig true mcs 600 none false =
          Except.ok ⟨true, mcs, 600, none, false⟩ ↔
        5 ≤ mcs ∧ mcs ≤ 50) ∧
    (∀ s : ℚ,
      mkTTSConfig "nova" "tts-1-hd" s = Except.ok ⟨"nova", "tts-1-hd", s⟩ ↔
        1/4 ≤ s ∧ s ≤ 4) ∧
    mkYouTubeConfig none none 0 3 300 =
      Except.error "max_fragment_failures: value must be between 1 and 50" ∧
    mkYouTubeConfig none none 51 3 300 =
      Except.error "max_fragment_failures: value must be between 1 and 50" ∧
    mkTranscriptionConfig true 4 600 none false =
      Except.error "max_chunk_size_mb: value must be between 5 and 50" ∧
    mkTranscriptionConfig true 51 600 none false =
      Except.error "max_chunk_size_mb: value must be between 5 and 50" ∧
    mkTTSConfig "nova" "tts-1-hd" (6/25) =
      Except.error "speed: value must be between 0.25 and 4.0" ∧
    mkTTSConfig "nova" "tts-1-hd" (41/10) =
      Except.error "speed: value must be between 0.25 and 4.0" := by
  refine ⟨?_, ?_, ?_, ?_, ?_, ?_, ?_, ?_, ?_⟩
  · intro mff
    constructor
    · intro h
      by_cases hb : 1 ≤ mff ∧ mff ≤ 50
      · exact hb
      · simp [mkYouTubeConfig, browserOk, hb] at h
    · intro hb
      simp [mkYouTubeConfig, browserOk, hb]
  · intro mcs
    constructor
    · intro h
      by_cases hb : 5 ≤ mcs ∧ mcs ≤ 50
      · exact hb
      · simp [mkTranscriptionConfig, hb] at h
    · intro hb
      simp [mkTranscriptionConfig, languageOk, normalizeLanguage, hb]
  · intro s
    rw [one_div]
    constructor
    · intro h
      by_cases hb : (4 : ℚ)⁻¹ ≤ s ∧ s ≤ 4
      · exact hb
      · rw [mkTTSConfig] at h
        simp only [one_div] at h
        simp [tts_config_voices, hb] at h
    · intro hb
      rw [mkTTSConfig]
      simp only [one_div]
      simp [tts_config_voices, hb]
  · simp [mkYouTubeConfig, browserOk]
  · simp [mkYouTubeConfig, browserOk]
  · simp [mkTranscriptionConfig]
  · simp [mkTranscriptionConfig]
  · have hq : ¬ ((4 : ℚ)⁻¹ ≤ 6/25) := by norm_num
    simp [mkTTSConfig, tts_config_voices, hq]
  · have hq : ¬ ((41 : ℚ)/10 ≤ 4) := by norm_num
    simp [mkTTSConfig, tts_config_voices, hq]

/-! ## Config file loading and the settings manager -/

/-- Error taxonomy of the settings resolver. -/
inductive ConfigErr where
  | fileNotFound (msg : String)
  | parseError (msg : String)
  | validationError (msg : String)
deriving Repr, DecidableEq

/-- Suffix test on strings, computed over the underlying character lists. -/
def strEndsWith (s pat : String) : Bool :=
  pat.data.isSuffixOf s.data

/-- Whether a path carries one of the supported config file extensions. -/
def supportedConfigExt (path : String) : Bool :=
  strEndsWith path ".yaml" || strEndsWith path ".yml" || strEndsWith path ".json"

/-- Modelled from the spec: reload of the settings from an explicit file
(the loader of `ei_cli.config`, absent from this tree).  The extension is
inspected first; an unsupported extension fails with a format error before
the file system is consulted at all, so a missing file with a bad extension
still reports the format error, as pinned by
`TestSettingsManager.test_reload_with_invalid_extension`.  The file system
is an explicit partial map from paths to raw contents. -/
def reloadFromFile (fs : String → Option String) (path : String) :
    Except ConfigErr String :=
  if supportedConfigExt path = false then
    Except.error (ConfigErr.parseError ("Unsupported config file format: " ++ path))
  else
    match fs path with
    | none => Except.error (ConfigErr.fileNotFound ("Config file not found: " ++ path))
    | some content => Except.ok content

/-- C9: an unsupported extension yields the format error containing the
documented phrase, for every state of the file system — in particular for a
file that does not exist — and never the file-not-found error. -/
theorem unsupported_extension_fast_fail (fs : String → Option String)
    (path : String) (hext : supportedConfigExt path = false) :
    reloadFromFile fs path =
      Except.error (ConfigErr.parseError ("Unsupported config file format: " ++ path)) ∧
    strContains ("Unsupported config file format: " ++ path)
      "Unsupported config file format" ∧
    (∀ m, reloadFromFile fs path ≠ Except.error (ConfigErr.fileNotFound m)) := by
  refine ⟨by simp [reloadFromFile, hext], ?_, ?_⟩
  · refine strContains_appendl path ⟨"", ": ", ?_⟩
    rw [String.empty_append]
    decide
  · intro m
    simp [reloadFromFile, hext]

/-- C9 witness: the unsupported extension path of the test, on an empty file
system, reports the format error rather than file-not-found. -/
theorem unsupported_extension_fast_fail_witness :
    reloadFromFile (fun _ => none) "config.txt" =
      Except.error
        (ConfigErr.parseError "Unsupported config file format: config.txt") :=
  (unsupported_extension_fast_fail (fun _ => none) "config.txt" (by decide)).1

/-! ## The process-wide settings cache (C8)

Snapshot identity is modelled by a construction counter: each fresh
resolution allocates the next identity, so two snapshots are the same Python
object exactly when they carry the same identity. -/

/-- State of the global settings manager: the next fresh snapshot identity
and the identity of the cached snapshot, when one exists. -/
structure SettingsStore where
  counter : Nat
  cached : Option Nat
deriving Repr, DecidableEq

/-- Modelled from the spec: `get_settings` returns the cached snapshot, and
constructs (allocating a fresh identity) and caches one on first call. -/
def getSettings (st : SettingsStore) : Nat × SettingsStore :=
  match st.cached with
  | some id => (id, st)
  | none => (st.counter, ⟨st.counter + 1, some st.counter⟩)

/-- Modelled from the spec: `reset_settings` drops the cached snapshot. -/
def resetSettings (st : SettingsStore) : SettingsStore :=
  ⟨st.counter, none⟩

/-- Well-formedness of the settings store: a cached identity was allocated
earlier than the next fresh identity. -/
def storeWF (st : SettingsStore) : Prop :=
  ∀ id, st.cached = some id → id < st.counter

/-- C8: two `get` calls without an intervening reset return the same cached
snapshot and leave the cache untouched, and the snapshot produced by the
first `get` after a `reset` is a strictly fresher instance, hence distinct
from every snapshot obtained before the reset even when field values
coincide. -/
theorem settings_singleton_and_reset (st : SettingsStore) (hwf : storeWF st) :
    (getSettings (getSettings st).2).1 = (getSettings st).1 ∧
    (getSettings (getSettings st).2).2 = (getSettings st).2 ∧
    (getSettings st).1 <
      (getSettings (resetSettings (getSettings (getSettings st).2).2)).1 := by
  match hc : st.cached with
  | some id =>
    have hlt : id < st.counter := hwf id hc
    refine ⟨?_, ?_, ?_⟩ <;>
      simp [getSettings, resetSettings, hc, hlt]
  | none =>
    refine ⟨?_, ?_, ?_⟩ <;>
      simp [getSettings, resetSettings, hc]

/-- C8 witness: on the initial store the two `get` results agree and the
post-reset snapshot is fresh. -/
theorem settings_singleton_and_reset_witness :
    (getSettings (getSettings ⟨0, none⟩).2).1 = (getSettings ⟨0, none⟩).1 ∧
    (getSettings ⟨0, none⟩).1 <
      (getSettings
        (resetSettings (getSettings (getSettings ⟨0, none⟩).2).2)).1 := by
  have h := settings_singleton_and_reset ⟨0, none⟩ (fun id h => by cases h)
  exact ⟨h.1, h.2.2⟩

/-! ## Secret storage and redacted export (C6) -/

/-- Wrapper type for the API key: the raw value is reachable only through
the explicit accessor, and the generic textual display is a fixed mask. -/
structure SecretStr where
  secret_value : String
deriving Repr, DecidableEq

/-- Explicit accessor for the raw secret. -/
def SecretStr.get_secret_value (s : SecretStr) : String := s.secret_value

/-- Modelled from the spec: the default textual representation of the secret
wrapper is always the mask, independent of the stored value. -/
def SecretStr.display : SecretStr → String := fun _ => "**********"

/-- API section of the configuration snapshot. -/
structure APIConfig where
  openai_api_key : SecretStr
  openai_base_url : Option String
  timeout_seconds : Nat
  max_retries : Nat
deriving Repr, DecidableEq

/-- Workflow section of the configuration snapshot. -/
structure WorkflowConfig where
  output_dir : String
  save_state : Bool
  parallel_execution : Bool
  fail_fast : Bool
deriving Repr, DecidableEq

/-- Resolved configuration snapshot with its five sections. -/
structure Settings where
  api : APIConfig
  youtube : YouTubeConfig
  transcription : TranscriptionConfig
  tts : TTSConfig
  workflow : WorkflowConfig
deriving Repr, DecidableEq

/-- Replace the stored API key of a snapshot. -/
def Settings.withKey (s : Settings) (k : String) : Settings :=
  { s with api := { s.api with openai_api_key := ⟨k⟩ } }

/-- Modelled from the spec: the string conversion / log rendering of a
snapshot, which renders the secret through its masked display. -/
def Settings.render (s : Settings) : String :=
  "Settings(api=APIConfig(openai_api_key=" ++ s.api.openai_api_key.display ++
    ", openai_base_url=" ++ (s.api.openai_base_url.getD "None") ++
    ", timeout_seconds=" ++ toString s.api.timeout_seconds ++
    ", max_retries=" ++ toString s.api.max_retries ++
    "), tts=TTSConfig(voice=" ++ s.tts.voice ++
    ", model=" ++ s.tts.model ++ "))"

/-- Fixed placeholder token written in place of the secret during export. -/
def api_key_placeholder : String := "YOUR_API_KEY_HERE"

/-- Rendering of an optional string field in the export. -/
def optStr : Option String → String
  | none => "null"
  | some v => v

/-- Rendering of a boolean field in the export. -/
def boolStr : Bool → String
  | true => "true"
  | false => "false"

/-- Rendering of a rational field in the export. -/
def ratStr (q : ℚ) : String :=
  toString q.num ++ "/" ++ toString q.den

/-- Modelled from the spec: serialization of the snapshot for `save(path)`;
the API-key field is written as the fixed placeholder token and every
non-secret field of every section is written from the snapshot. -/
def Settings.to_yaml (s : Settings) : String :=
  "api:\n  openai_api_key: " ++ api_key_placeholder ++
    "\n  openai_base_url: " ++ optStr s.api.openai_base_url ++
    "\n  timeout_seconds: " ++ toString s.api.timeout_seconds ++
    "\n  max_retries: " ++ toString s.api.max_retries ++
    "\nyoutube:\n  cookies_browser: " ++ optStr s.youtube.cookies_browser ++
    "\n  cookies_file: " ++ optStr s.youtube.cookies_file ++
    "\n  max_fragment_failures: " ++ toString s.youtube.max_fragment_failures ++
    "\n  retry_attempts: " ++ toString s.youtube.retry_attempts ++
    "\n  timeout_seconds: " ++ toString s.youtube.timeout_seconds ++
    "\ntranscription:\n  auto_chunk: " ++ boolStr s.transcription.auto_chunk ++
    "\n  max_chunk_size_mb: " ++ toString s.transcription.max_chunk_size_mb ++
    "\n  chunk_duration_seconds: " ++
    toString s.transcription.chunk_duration_seconds ++
    "\n  language: " ++ optStr s.transcription.language ++
    "\n  save_intermediate: " ++ boolStr s.transcription.save_intermediate ++
    "\ntts:\n  voice: " ++ s.tts.voice ++
    "\n  model: " ++ s.tts.model ++
    "\n  speed: " ++ ratStr s.tts.speed ++
    "\nworkflow:\n  output_dir: " ++ s.workflow.output_dir ++
    "\n  save_state: " ++ boolStr s.workflow.save_state ++
    "\n  parallel_execution: " ++ boolStr s.workflow.parallel_execution ++
    "\n  fail_fast: " ++ boolStr s.workflow.fail_fast ++ "\n"

/-- C6: the rendering and the serialized export of a snapshot are unchanged
under any replacement of the raw API key (so neither ever depends on, nor
can leak, the secret), the export always carries the fixed placeholder token
in the key field while writing every non-secret field of every section, and
only the explicit accessor yields the raw value. -/
theorem secret_redaction (s : Settings) (k1 k2 : String) :
    Settings.render (s.withKey k1) = Settings.render (s.withKey k2) ∧
    Settings.to_yaml (s.withKey k1) = Settings.to_yaml (s.withKey k2) ∧
    strContains (Settings.to_yaml s) api_key_placeholder ∧
    strContains (Settings.to_yaml s) (optStr s.api.openai_base_url) ∧
    strContains (Settings.to_yaml s) (toString s.api.timeout_seconds) ∧
    strContains (Settings.to_yaml s) (toString s.api.max_retries) ∧
    strContains (Settings.to_yaml s) (optStr s.youtube.cookies_browser) ∧
    strContains (Settings.to_yaml s) (optStr s.youtube.cookies_file) ∧
    strContains (Settings.to_yaml s) (toString s.youtube.max_fragment_failures) ∧
    strContains (Settings.to_yaml s) (toString s.youtube.retry_attempts) ∧
    strContains (Settings.to_yaml s) (toString s.youtube.timeout_seconds) ∧
    strContains (Settings.to_yaml s) (boolStr s.transcription.auto_chunk) ∧
    strContains (Settings.to_yaml s) (toString s.transcription.max_chunk_size_mb) ∧
    strContains (Settings.to_yaml s)
      (toString s.transcription.chunk_duration_seconds) ∧
    strContains (Settings.to_yaml s) (optStr s.transcription.language) ∧
    strContains (Settings.to_yaml s) (boolStr s.transcription.save_intermediate) ∧
    strContains (Settings.to_yaml s) s.tts.voice ∧
    strContains (Settings.to_yaml s) s.tts.model ∧
    strContains (Settings.to_yaml s) (ratStr s.tts.speed) ∧
    strContains (Settings.to_yaml s) s.workflow.output_dir ∧
    strContains (Settings.to_yaml s) (boolStr s.workflow.save_state) ∧
    strContains (Settings.to_yaml s) (boolStr s.workflow.parallel_execution) ∧
    strContains (Settings.to_yaml s) (boolStr s.workflow.fail_fast) ∧
    strContains (Settings.render s) "**********" ∧
    (s.withKey k1).api.openai_api_key.get_secret_value = k1 := by
  refine ⟨rfl, rfl, ?_, ?_, ?_, ?_, ?_, ?_, ?_, ?_, ?_, ?_, ?_, ?_, ?_, ?_, ?_,
    ?_, ?_, ?_, ?_, ?_, ?_, ?_, rfl⟩
  all_goals
    first
    | unfold Settings.to_yaml
    | unfold Settings.render
  all_goals
    repeat
      first
      | exact strContains_appendr _ (strContains_self _)
      | apply strContains_appendl

/-! ## Service call guard

Modelled from the spec: the retry / availability logic of
`ei_cli.services.ai_service` and `ei_cli.services.base` (absent from this
tree), spec sections 4.2 and 7, with attempt counts, error classes and
message phrases taken from
`src/tests/python/unit/services/test_ai_service.py`.  The remote call is a
thunk indexed by the attempt number (attempt `i` of the guard evaluates
`thunk i`), and each guarded operation returns the outcome together with
the number of times the thunk was invoked, so that "no network attempt"
is the statement that this count is zero. -/

/-- Error taxonomy of the service layer: the fast-fail unavailability error,
the retry-exhaustion wrapper, and the local parameter-validation error. -/
inductive ServiceErr where
  | unavailable (msg : String)
  | exhausted (msg : String)
  | invalidParameter (msg : String)
deriving Repr, DecidableEq

/-- Whether an attempt outcome is a failure. -/
def isErr {α : Type} : Except String α → Bool
  | Except.error _ => true
  | Except.ok _ => false

/-- Modelled from the spec: the bounded retry loop, running attempt `k` with
`fuel` further attempts allowed; when the final attempt fails, the last
failure message is wrapped behind the fixed operation phrase. -/
def retryFrom {α : Type} (thunk : Nat → Except String α) (opFail : String) :
    Nat → Nat → Except ServiceErr α × Nat
  | 0, k =>
    match thunk k with
    | Except.ok v => (Except.ok v, k + 1)
    | Except.error e =>
        (Except.error (ServiceErr.exhausted (opFail ++ ": " ++ e)), k + 1)
  | fuel + 1, k =>
    match thunk k with
    | Except.ok v => (Except.ok v, k + 1)
    | Except.error _ => retryFrom thunk opFail fuel (k + 1)

/-- Modelled from the spec: a full guarded retry run of `max_retries` total
attempts (the tests with `max_retries=3` observe exactly 3 calls). -/
def retryRun {α : Type} (max_retries : Nat) (thunk : Nat → Except String α)
    (opFail : String) : Except ServiceErr α × Nat :=
  retryFrom thunk opFail (max_retries - 1) 0

/-- An AI service instance: its resolved key and guard parameters. -/
structure AIService where
  api_key : String
  max_retries : Nat
  rate_limit : Nat
deriving Repr, DecidableEq

/-- Modelled from the spec: the cheap availability pre-check; no network
round-trip, it only inspects the resolved key. -/
def check_available (svc : AIService) : Bool × Option String :=
  if svc.api_key = "" then (false, some "OpenAI API key not configured")
  else (true, none)

/-- Modelled from the spec: the guard wrapping every outbound operation; the
availability pre-check runs first and short-circuits with the distinct
unavailability error before any attempt, otherwise the bounded retry loop
runs. -/
def guardedCall {α : Type} (svc : AIService) (opFail : String)
    (thunk : Nat → Except String α) : Except ServiceErr α × Nat :=
  if (check_available svc).1 = false then
    (Except.error (ServiceErr.unavailable ((check_available svc).2.getD "")), 0)
  else
    retryRun svc.max_retries thunk opFail

/-- Modelled from the spec: the web-search operation. -/
def search {α : Type} (svc : AIService) (thunk : Nat → Except String α) :
    Except ServiceErr α × Nat :=
  guardedCall svc "Search failed" thunk

/-- Modelled from the spec: the vision-analysis operation. -/
def analyze_image {α : Type} (svc : AIService) (thunk : Nat → Except String α) :
    Except ServiceErr α × Nat :=
  guardedCall svc "Vision analysis failed" thunk

/-- Modelled from the spec: the image-generation operation. -/
def generate_image {α : Type} (svc : AIService) (thunk : Nat → Except String α) :
    Except ServiceErr α × Nat :=
  guardedCall svc "Image generation failed" thunk

/-- Modelled from the spec: the audio-transcription operation. -/
def transcribe_audio {α : Type} (svc : AIService) (thunk : Nat → Except String α) :
    Except ServiceErr α × Nat :=
  guardedCall svc "Transcription failed" thunk

/-! ## Retry semantics (C2) -/

/-- Helper: a run that fails on the first `m` attempts and succeeds on the
next one returns the success after exactly `m + 1` thunk invocations. -/
theorem retryFrom_ok {α : Type} (thunk : Nat → Except String α) (opFail : String)
    (v : α) :
    ∀ m fuel k, (∀ i, i < m → isErr (thunk (k + i)) = true) →
      thunk (k + m) = Except.ok v → m ≤ fuel →
      retryFrom thunk opFail fuel k = (Except.ok v, k + m + 1) := by
  intro m
  induction m with
  | zero =>
    intro fuel k _ hok _
    simp only [Nat.add_zero] at hok
    cases fuel with
    | zero => simp [retryFrom, hok]
    | succ f => simp [retryFrom, hok]
  | succ m ih =>
    intro fuel k herr hok hle
    cases fuel with
    | zero => omega
    | succ f =>
      have h0 : isErr (thunk k) = true := by
        have := herr 0 (Nat.succ_pos m)
        simpa using this
      cases he : thunk k with
      | ok w => rw [he] at h0; simp [isErr] at h0
      | error e =>
        have hrec := ih f (k + 1)
          (fun i hi => by
            have := herr (i + 1) (by omega)
            have harith : k + (i + 1) = k + 1 + i := by omega
            rwa [harith] at this)
          (by
            have harith : k + (m + 1) = k + 1 + m := by omega
            rwa [harith] at hok)
          (by omega)
        have harith2 : k + 1 + m + 1 = k + (m + 1) + 1 := by omega
        rw [retryFrom, he, hrec, harith2]

/-- Helper: a run that fails on every attempt exhausts the fuel and wraps
the final failure message after exactly `fuel + 1` thunk invocations. -/
theorem retryFrom_exhaust {α : Type} (thunk : Nat → Except String α)
    (opFail e : String) :
    ∀ fuel k, (∀ i, i ≤ fuel → isErr (thunk (k + i)) = true) →
      thunk (k + fuel) = Except.error e →
      retryFrom thunk opFail fuel k =
        (Except.error (ServiceErr.exhausted (opFail ++ ": " ++ e)), k + fuel + 1) := by
  intro fuel
  induction fuel with
  | zero =>
    intro k _ hlast
    simp only [Nat.add_zero] at hlast
    simp [retryFrom, hlast]
  | succ f ih =>
    intro k herr hlast
    have h0 : isErr (thunk k) = true := by
      have := herr 0 (Nat.zero_le _)
      simpa using this
    cases he : thunk k with
    | ok w => rw [he] at h0; simp [isErr] at h0
    | error e0 =>
      have hrec := ih (k + 1)
        (fun i hi => by
          have := herr (i + 1) (by omega)
          have harith : k + (i + 1) = k + 1 + i := by omega
          rwa [harith] at this)
        (by
          have harith : k + (f + 1) = k + 1 + f := by omega
          rwa [harith] at hlast)
      have harith2 : k + 1 + f + 1 = k + (f + 1) + 1 := by omega
      rw [retryFrom, he, hrec, harith2]

/-- C2: a guarded run with `max_retries = n` that fails on its first
`k < n` attempts and succeeds on attempt `k + 1` returns the success value
after exactly `k + 1` thunk invocations; a run that fails on every attempt
invokes the thunk exactly `n` times and ends in the typed exhaustion error
whose message carries both the fixed operation phrase and the last
underlying failure message. -/
theorem retry_semantics {α : Type} (n : Nat) (hn : 1 ≤ n)
    (thunk : Nat → Except String α) (opFail : String) :
    (∀ k v, k < n → (∀ i, i < k → isErr (thunk i) = true) →
      thunk k = Except.ok v →
      retryRun n thunk opFail = (Except.ok v, k + 1)) ∧
    (∀ e, (∀ i, i < n → isErr (thunk i) = true) →
      thunk (n - 1) = Except.error e →
      retryRun n thunk opFail =
        (Except.error (ServiceErr.exhausted (opFail ++ ": " ++ e)), n) ∧
      strContains (opFail ++ ": " ++ e) opFail ∧
      strContains (opFail ++ ": " ++ e) e) := by
  constructor
  · intro k v hk herr hok
    have h := retryFrom_ok thunk opFail v k (n - 1) 0
      (fun i hi => by simpa using herr i hi)
      (by simpa using hok)
      (by omega)
    rw [retryRun, h]
    simp
  · intro e herr hlast
    refine ⟨?_, ?_, ?_⟩
    · have h := retryFrom_exhaust thunk opFail e (n - 1) 0
        (fun i hi => by
          have := herr i (by omega)
          simpa using this)
        (by simpa using hlast)
      rw [retryRun, h]
      have : 0 + (n - 1) + 1 = n := by omega
      rw [this]
    · exact strContains_appendl e (strContains_appendl ": " (strContains_self opFail))
    · exact strContains_appendr (opFail ++ ": ") (strContains_self e)

/-- C2 witness: with `max_retries = 3`, a thunk failing twice then
succeeding returns the success after exactly 3 invocations, and an
always-failing thunk is wrapped after exactly 3 invocations with a message
carrying both the operation phrase and the original failure text. -/
theorem retry_semantics_witness :
    retryRun 3 (fun i => if i < 2 then (Except.error "Rate limit" : Except String String)
        else Except.ok "success") "Search failed" = (Except.ok "success", 3) ∧
    retryRun 3 (fun _ => (Except.error "Always fails" : Except String String))
        "Search failed" =
      (Except.error (ServiceErr.exhausted "Search failed: Always fails"), 3) := by
  constructor
  · have h := (retry_semantics 3 (by omega)
      (fun i => if i < 2 then (Except.error "Rate limit" : Except String String)
        else Except.ok "success") "Search failed").1 2 "success" (by omega)
      (fun i hi => by interval_cases i <;> rfl) (by rfl)
    exact h
  · have h := ((retry_semantics 3 (by omega)
      (fun _ => (Except.error "Always fails" : Except String String))
      "Search failed").2 "Always fails" (fun i _ => rfl) rfl).1
    exact h

/-! ## Availability fast-fail (C4) -/

/-- C4: a service whose resolved key is empty reports unavailable with a
reason naming the API key, and each guarded operation short-circuits with
the distinct unavailability error after zero thunk invocations — never the
retry-exhaustion error and never after retrying. -/
theorem unavailable_before_any_attempt {α : Type} (mr rl : Nat)
    (thunk : Nat → Except String α) :
    check_available ⟨"", mr, rl⟩ = (false, some "OpenAI API key not configured") ∧
    strContains "OpenAI API key not configured" "API key" ∧
    search ⟨"", mr, rl⟩ thunk =
      (Except.error (ServiceErr.unavailable "OpenAI API key not configured"), 0) ∧
    analyze_image ⟨"", mr, rl⟩ thunk =
      (Except.error (ServiceErr.unavailable "OpenAI API key not configured"), 0) ∧
    generate_image ⟨"", mr, rl⟩ thunk =
      (Except.error (ServiceErr.unavailable "OpenAI API key not configured"), 0) ∧
    transcribe_audio ⟨"", mr, rl⟩ thunk =
      (Except.error (ServiceErr.unavailable "OpenAI API key not configured"), 0) := by
  refine ⟨rfl, ⟨"OpenAI ", " not configured", by decide⟩, ?_, ?_, ?_, ?_⟩ <;>
    simp [search, analyze_image, generate_image, transcribe_audio, guardedCall,
      check_available]

/-! ## Local parameter validation of the speech and translation operations

Modelled from the spec: the per-operation validation of `text_to_speech`,
`text_to_speech_stream` and `translate_audio` (absent from this tree), spec
sections 4.2 and 7, with the voice tables, format lists, bounds and message
phrases taken from `src/tests/python/unit/services/test_ai_service.py`. -/

/-- Voices accepted by the tts-1 model (11 voices). -/
def tts1_voices : List String :=
  ["alloy", "ash", "ballad", "coral", "echo", "fable", "onyx", "nova",
   "sage", "shimmer", "verse"]

/-- Voices accepted by the tts-1-hd model (8 voices; marin and cedar are
HD-exclusive, while ash, ballad, coral, sage and verse are tts-1-only). -/
def tts_hd_voices : List String :=
  ["alloy", "echo", "fable", "onyx", "nova", "shimmer", "marin", "cedar"]

/-- The voice table of a given TTS model name. -/
def voicesForModel (model : String) : List String :=
  if model = "tts-1-hd" then tts_hd_voices else tts1_voices

/-- Audio output formats accepted by the speech operations. -/
def speech_formats : List String := ["mp3", "opus", "aac", "flac", "wav", "pcm"]

/-- Response formats accepted by the audio-translation operation. -/
def translation_formats : List String :=
  ["json", "text", "srt", "verbose_json", "vtt"]

/-- Modelled from the spec: the local parameter validation shared by the
speech operations, returning the first violated constraint, if any. -/
def ttsParamCheck (text voice model : String) (speed : ℚ) (fmt : String) :
    Option ServiceErr :=
  if text = "" then
    some (ServiceErr.invalidParameter "Text cannot be empty")
  else if (voicesForModel model).contains voice = false then
    some (ServiceErr.invalidParameter
      ("Invalid voice: " ++ voice ++ " for model " ++ model))
  else if speed < 1/4 ∨ 4 < speed then
    some (ServiceErr.invalidParameter "Speed out of range (0.25 to 4.0)")
  else if speech_formats.contains fmt = false then
    some (ServiceErr.invalidParameter ("Invalid format: " ++ fmt))
  else
    none

/-- Modelled from the spec: the text-to-speech operation; availability, then
local validation, then the guarded remote call. -/
def text_to_speech {α : Type} (svc : AIService) (text voice model : String)
    (speed : ℚ) (fmt : String) (thunk : Nat → Except String α) :
    Except ServiceErr α × Nat :=
  if (check_available svc).1 = false then
    (Except.error (ServiceErr.unavailable ((check_available svc).2.getD "")), 0)
  else
    match ttsParamCheck text voice model speed fmt with
    | some err => (Except.error err, 0)
    | none => retryRun svc.max_retries thunk "Speech generation failed"

/-- Modelled from the spec: the streaming text-to-speech operation, sharing
the local validation of the non-streaming one. -/
def text_to_speech_stream {α : Type} (svc : AIService) (text voice model : String)
    (speed : ℚ) (fmt : String) (thunk : Nat → Except String α) :
    Except ServiceErr α × Nat :=
  if (check_available svc).1 = false then
    (Except.error (ServiceErr.unavailable ((check_available svc).2.getD "")), 0)
  else
    match ttsParamCheck text voice model speed fmt with
    | some err => (Except.error err, 0)
    | none => retryRun svc.max_retries thunk "Streaming speech generation failed"

/-- Modelled from the spec: the audio-translation operation; availability,
file existence, then local parameter validation, then the guarded call. -/
def translate_audio {α : Type} (svc : AIService) (fileExists : Bool)
    (fmt : String) (temperature : ℚ) (thunk : Nat → Except String α) :
    Except ServiceErr α × Nat :=
  if (check_available svc).1 = false then
    (Except.error (ServiceErr.unavailable ((check_available svc).2.getD "")), 0)
  else if fileExists = false then
    (Except.error (ServiceErr.invalidParameter "Audio file not found"), 0)
  else if translation_formats.contains fmt = false then
    (Except.error (ServiceErr.invalidParameter ("Invalid format: " ++ fmt)), 0)
  else if temperature < 0 ∨ 1 < temperature then
    (Except.error (ServiceErr.invalidParameter
      "Temperature out of range (0.0 to 1.0)"), 0)
  else
    retryRun svc.max_retries thunk "Translation failed"

/-- C7: every locally invalid parameter — a voice unsupported by the chosen
model, an out-of-range speed, an unsupported audio format, or an
out-of-range translation temperature — makes the operation return the local
invalid-parameter error after zero thunk invocations: the failure happens
before any network call and is never retried. -/
theorem invalid_parameter_before_any_attempt {α : Type} (svc : AIService)
    (hkey : svc.api_key ≠ "") (text voice model fmt tfmt : String)
    (speed temperature : ℚ) (thunk : Nat → Except String α) :
    (text ≠ "" → (voicesForModel model).contains voice = false →
      text_to_speech svc text voice model speed fmt thunk =
        (Except.error (ServiceErr.invalidParameter
          ("Invalid voice: " ++ voice ++ " for model " ++ model)), 0) ∧
      text_to_speech_stream svc text voice model speed fmt thunk =
        (Except.error (ServiceErr.invalidParameter
          ("Invalid voice: " ++ voice ++ " for model " ++ model)), 0)) ∧
    (text ≠ "" → (voicesForModel model).contains voice = true →
      (speed < 1/4 ∨ 4 < speed) →
      text_to_speech svc text voice model speed fmt thunk =
        (Except.error (ServiceErr.invalidParameter
          "Speed out of range (0.25 to 4.0)"), 0)) ∧
    (text ≠ "" → (voicesForModel model).contains voice = true →
      ¬ (speed < 1/4 ∨ 4 < speed) → speech_formats.contains fmt = false →
      text_to_speech svc text voice model speed fmt thunk =
        (Except.error (ServiceErr.invalidParameter ("Invalid format: " ++ fmt)), 0)) ∧
    (translation_formats.contains tfmt = true →
      (temperature < 0 ∨ 1 < temperature) →
      translate_audio svc true tfmt temperature thunk =
        (Except.error (ServiceErr.invalidParameter
          "Temperature out of range (0.0 to 1.0)"), 0)) := by
  have hav : (check_available svc).1 = true := by
    simp [check_available, hkey]
  refine ⟨?_, ?_, ?_, ?_⟩
  · intro htext hvoice
    have hv : voice ∉ voicesForModel model := by simpa using hvoice
    constructor <;>
      simp [text_to_speech, text_to_speech_stream, hav, ttsParamCheck, htext, hv]
  · intro htext hvoice hspeed
    have hv : voice ∈ voicesForModel model := by simpa using hvoice
    have hs : speed < (4 : ℚ)⁻¹ ∨ 4 < speed := by rw [← one_div]; exact hspeed
    simp [text_to_speech, hav, ttsParamCheck, htext, hv, hs]
  · intro htext hvoice hspeed hfmt
    have hv : voice ∈ voicesForModel model := by simpa using hvoice
    have hs : ¬ (speed < (4 : ℚ)⁻¹ ∨ 4 < speed) := by rw [← one_div]; exact hspeed
    have hf : fmt ∉ speech_formats := by simpa using hfmt
    simp [text_to_speech, hav, ttsParamCheck, htext, hv, hs, hf]
  · intro hfmt htemp
    have hf : tfmt ∈ translation_formats := by simpa using hfmt
    simp [translate_audio, hav, hf, htemp]

/-- C7 witness: the HD-exclusive voice marin with the tts-1 model, the
tts-1-only voice ballad with the tts-1-hd model, speed 5.0, format txt, and
translation temperature 2.0 each fail locally with zero thunk invocations. -/
theorem invalid_parameter_before_any_attempt_witness :
    text_to_speech ⟨"test-key", 3, 2⟩ "Test" "marin" "tts-1" 1 "mp3"
        (fun _ => (Except.ok "audio-bytes" : Except String String)) =
      (Except.error (ServiceErr.invalidParameter
        "Invalid voice: marin for model tts-1"), 0) ∧
    text_to_speech ⟨"test-key", 3, 2⟩ "Test" "ballad" "tts-1-hd" 1 "mp3"
        (fun _ => (Except.ok "audio-bytes" : Except String String)) =
      (Except.error (ServiceErr.invalidParameter
        "Invalid voice: ballad for model tts-1-hd"), 0) ∧
    text_to_speech ⟨"test-key", 3, 2⟩ "Hello" "alloy" "tts-1" 5 "mp3"
        (fun _ => (Except.ok "audio-bytes" : Except String String)) =
      (Except.error (ServiceErr.invalidParameter
        "Speed out of range (0.25 to 4.0)"), 0) ∧
    translate_audio ⟨"test-key", 3, 2⟩ true "text" 2
        (fun _ => (Except.ok "translated" : Except String String)) =
      (Except.error (ServiceErr.invalidParameter
        "Temperature out of range (0.0 to 1.0)"), 0) := by
  have h1 := (invalid_parameter_before_any_attempt ⟨"test-key", 3, 2⟩
    (by decide) "Test" "marin" "tts-1" "mp3" "text" 1 2
    (fun _ => (Except.ok "audio-bytes" : Except String String))).1
    (by decide) (by decide)
  have h2 := (invalid_parameter_before_any_attempt ⟨"test-key", 3, 2⟩
    (by decide) "Test" "ballad" "tts-1-hd" "mp3" "text" 1 2
    (fun _ => (Except.ok "audio-bytes" : Except String String))).1
    (by decide) (by decide)
  have h3 := ((invalid_parameter_before_any_attempt ⟨"test-key", 3, 2⟩
    (by decide) "Hello" "alloy" "tts-1" "mp3" "text" 5 2
    (fun _ => (Except.ok "audio-bytes" : Except String String))).2.1
    (by decide) (by decide) (by norm_num))
  have h4 := ((invalid_parameter_before_any_attempt ⟨"test-key", 3, 2⟩
    (by decide) "Hello" "alloy" "tts-1" "mp3" "text" 1 2
    (fun _ => (Except.ok "translated" : Except String String))).2.2.2
    (by decide) (by norm_num))
  exact ⟨h1.1, h2.1, h3, h4⟩

/-- C10: for every voice, model, speed and format, calling either speech
operation with empty input text fails locally with a message naming the
emptiness, after zero thunk invocations. -/
theorem empty_text_before_any_attempt {α : Type} (svc : AIService)
    (hkey : svc.api_key ≠ "") (voice model fmt : String) (speed : ℚ)
    (thunk : Nat → Except String α) :
    text_to_speech svc "" voice model speed fmt thunk =
      (Except.error (ServiceErr.invalidParameter "Text cannot be empty"), 0) ∧
    text_to_speech_stream svc "" voice model speed fmt thunk =
      (Except.error (ServiceErr.invalidParameter "Text cannot be empty"), 0) ∧
    strContains "Text cannot be empty" "empty" := by
  have hav : (check_available svc).1 = true := by
    simp [check_available, hkey]
  refine ⟨?_, ?_, strContains_appendr "Text cannot be " (strContains_self "empty")⟩ <;>
    simp [text_to_speech, text_to_speech_stream, hav, ttsParamCheck]

/-- C10 witness: empty text with the default voice and model fails locally
in both speech operations with zero thunk invocations. -/
theorem empty_text_before_any_attempt_witness :
    text_to_speech ⟨"test-key", 3, 2⟩ "" "alloy" "tts-1" 1 "mp3"
        (fun _ => (Except.ok "audio-bytes" : Except String String)) =
      (Except.error (ServiceErr.invalidParameter "Text cannot be empty"), 0) ∧
    text_to_speech_stream ⟨"test-key", 3, 2⟩ "" "alloy" "tts-1" 1 "mp3"
        (fun _ => (Except.ok "audio-bytes" : Except String String)) =
      (Except.error (ServiceErr.invalidParameter "Text cannot be empty"), 0) := by
  have h := empty_text_before_any_attempt ⟨"test-key", 3, 2⟩ (by decide)
    "alloy" "tts-1" "mp3" 1
    (fun _ => (Except.ok "audio-bytes" : Except String String))
  exact ⟨h.1, h.2.1⟩

/-! ## The windowed rate limiter (C3)

Modelled from the spec: the sliding-window rate limiter owned by one
service instance (absent from this tree), spec sections 3 and 4.2.  Time is
a natural number of ticks and the window length is a parameter; the guard
blocks until the count of recorded timestamps in the trailing window is
below `max_requests`, so the admission time of a call is the earliest
instant at or after the request at which that count is below the bound,
and that instant is then recorded. -/

/-- State of the rate limiter: its bound, its window length in ticks, and
the recorded admission timestamps. -/
structure RateLimiter where
  max_requests : Nat
  window : Nat
  calls : List Nat
deriving Repr, DecidableEq

/-- Number of recorded timestamps lying in the trailing window at time `t`,
that is, timestamps `s` with `s ≤ t < s + window`. -/
def countInWindow (window : Nat) (calls : List Nat) (t : Nat) : Nat :=
  calls.countP (fun s => decide (s ≤ t) && decide (t < s + window))

/-- Whether time `T` is an admissible instant for a request issued at
`now`: it is not in the past and the trailing window is not full there. -/
def feasible (maxReq window : Nat) (calls : List Nat) (now T : Nat) : Bool :=
  decide (now ≤ T) && decide (countInWindow window calls T < maxReq)

/-- Least element of a candidate list satisfying a predicate, if any. -/
def bestAdmit (p : Nat → Bool) : List Nat → Option Nat
  | [] => none
  | c :: cs =>
    match bestAdmit p cs with
    | none => if p c then some c else none
    | some r => if p c then some (min c r) else some r

/-- The admission instant of a request issued at `now`: the count in the
trailing window only changes at `now` or when a recorded call leaves the
window, so it suffices to scan those candidate instants. -/
def nextAdmitTime (maxReq window : Nat) (calls : List Nat) (now : Nat) : Nat :=
  (bestAdmit (feasible maxReq window calls now)
    (now :: calls.map (fun s => s + window))).getD now

/-- Modelled from the spec: one pass through the rate gate — block until
the window admits the call, then record the admission timestamp. -/
def RateLimiter.acquire (rl : RateLimiter) (now : Nat) : Nat × RateLimiter :=
  (nextAdmitTime rl.max_requests rl.window rl.calls now,
   ⟨rl.max_requests, rl.window,
    nextAdmitTime rl.max_requests rl.window rl.calls now :: rl.calls⟩)

/-- The test scenario of three back-to-back calls through a limiter with
`max_requests = 2`, started at time 0: first and last admission instants. -/
def threeCallGap (window : Nat) : Nat × Nat :=
  ((RateLimiter.acquire ⟨2, window, []⟩ 0).1,
   (RateLimiter.acquire
      ((RateLimiter.acquire ⟨2, window, []⟩ 0).2.acquire
        (RateLimiter.acquire ⟨2, window, []⟩ 0).1).2
      (((RateLimiter.acquire ⟨2, window, []⟩ 0).2.acquire
        (RateLimiter.acquire ⟨2, window, []⟩ 0).1).1)).1)

/-- Helper: any instant returned by the candidate scan satisfies the
predicate. -/
theorem bestAdmit_sat (p : Nat → Bool) :
    ∀ l T, bestAdmit p l = some T → p T = true := by
  intro l
  induction l with
  | nil => intro T h; simp [bestAdmit] at h
  | cons c cs ih =>
    intro T h
    rw [bestAdmit] at h
    cases hb : bestAdmit p cs with
    | none =>
      simp only [hb] at h
      by_cases hp : p c = true
      · simp only [hp, if_true, Option.some.injEq] at h
        rw [← h]
        exact hp
      · simp [hp] at h
    | some r =>
      simp only [hb] at h
      by_cases hp : p c = true
      · simp only [hp, if_true, Option.some.injEq] at h
        rw [← h]
        rcases min_choice c r with hm | hm
        · rw [hm]; exact hp
        · rw [hm]; exact ih r hb
      · simp only [hp, Bool.false_eq_true, if_false, Option.some.injEq] at h
        rw [← h]
        exact ih r hb

/-- Helper: the candidate scan succeeds whenever some candidate satisfies
the predicate. -/
theorem bestAdmit_isSome (p : Nat → Bool) :
    ∀ l c, c ∈ l → p c = true → ∃ T, bestAdmit p l = some T := by
  intro l
  induction l with
  | nil => intro c hc; simp at hc
  | cons a as ih =>
    intro c hc hp
    rw [bestAdmit]
    rcases List.mem_cons.1 hc with hca | hcs
    · subst hca
      cases hb : bestAdmit p as with
      | none => exact ⟨c, by simp only [bestAdmit, hb, hp, if_true]⟩
      | some r => exact ⟨min c r, by simp only [bestAdmit, hb, hp, if_true]⟩
    · obtain ⟨T, hT⟩ := ih c hcs hp
      by_cases hpa : p a = true
      · exact ⟨min a T, by simp only [bestAdmit, hT, hpa, if_true]⟩
      · exact ⟨T, by simp only [bestAdmit, hT, hpa, Bool.false_eq_true, if_false]⟩

/-- Helper: a nonempty list of naturals has a maximal element. -/
theorem exists_max_mem : ∀ (l : List Nat), l ≠ [] → ∃ M, M ∈ l ∧ ∀ s ∈ l, s ≤ M := by
  intro l
  induction l with
  | nil => intro h; exact absurd rfl h
  | cons a as ih =>
    intro _
    by_cases has : as = []
    · subst has
      exact ⟨a, List.mem_cons_self a [], by intro s hs; simp at hs; omega⟩
    · obtain ⟨M, hM, hMax⟩ := ih has
      refine ⟨max a M, ?_, ?_⟩
      · rcases max_choice a M with hm | hm
        · rw [hm]; exact List.mem_cons_self a as
        · rw [hm]; exact List.mem_cons_of_mem a hM
      · intro s hs
        rcases List.mem_cons.1 hs with hsa | hss
        · subst hsa; exact le_max_left s M
        · exact le_trans (hMax s hss) (le_max_right a M)

/-- Helper: counting with a pointwise weaker predicate counts no more. -/
theorem countP_le_of_imp {p q : Nat → Bool} :
    ∀ (l : List Nat), (∀ a ∈ l, p a = true → q a = true) →
      l.countP p ≤ l.countP q := by
  intro l
  induction l with
  | nil => intro _; simp
  | cons a as ih =>
    intro h
    rw [List.countP_cons, List.countP_cons]
    have hl := ih (fun b hb hp => h b (List.mem_cons_of_mem a hb) hp)
    have hif : (if p a then 1 else 0) ≤ (if q a then 1 else 0) := by
      by_cases hp : p a = true
      · simp [hp, h a (List.mem_cons_self a as) hp]
      · simp [hp]
    omega

/-- Helper: under a live bound and past-only recorded calls, the admission
instant is not in the past and sees a non-full trailing window. -/
theorem nextAdmitTime_feasible (maxReq window : Nat) (calls : List Nat)
    (now : Nat) (hmax : 1 ≤ maxReq) (hcalls : ∀ s ∈ calls, s ≤ now) :
    now ≤ nextAdmitTime maxReq window calls now ∧
    countInWindow window calls (nextAdmitTime maxReq window calls now) < maxReq := by
  have hfeas : ∃ c, c ∈ now :: calls.map (fun s => s + window) ∧
      feasible maxReq window calls now c = true := by
    by_cases hc : countInWindow window calls now < maxReq
    · exact ⟨now, List.mem_cons_self _ _, by simp [feasible, hc]⟩
    · have hpos : 0 < calls.countP
          (fun s => decide (s ≤ now) && decide (now < s + window)) := by
        have : countInWindow window calls now ≠ 0 := by
          intro h0
          rw [h0] at hc
          omega
        rw [countInWindow] at this
        omega
      obtain ⟨s0, hs0mem, hs0⟩ := List.countP_pos_iff.1 hpos
      have hs0win : now < s0 + window := by
        rw [Bool.and_eq_true] at hs0
        exact of_decide_eq_true hs0.2
      obtain ⟨M, hMmem, hMax⟩ := exists_max_mem calls
        (by intro h; rw [h] at hs0mem; simp at hs0mem)
      refine ⟨M + window, List.mem_cons_of_mem _ (List.mem_map_of_mem _ hMmem), ?_⟩
      have hnow : now ≤ M + window := by
        have := hMax s0 hs0mem
        omega
      have hzero : countInWindow window calls (M + window) = 0 := by
        rw [countInWindow, List.countP_eq_zero]
        intro s hs
        have hsM : s ≤ M := hMax s hs
        simp only [Bool.and_eq_true, decide_eq_true_eq, not_and]
        intro _
        omega
      simp [feasible, hnow, hzero, hmax]
      omega
  obtain ⟨c, hcmem, hcp⟩ := hfeas
  obtain ⟨T, hT⟩ := bestAdmit_isSome (feasible maxReq window calls now) _ c hcmem hcp
  have hTp := bestAdmit_sat (feasible maxReq window calls now) _ T hT
  have hTval : nextAdmitTime maxReq window calls now = T := by
    rw [nextAdmitTime, hT]
    rfl
  rw [hTval]
  rw [feasible, Bool.and_eq_true] at hTp
  exact ⟨of_decide_eq_true hTp.1, of_decide_eq_true hTp.2⟩

/-- Helper: evaluation of the three-call scenario — the first two calls are
admitted at once and the third exactly one window later. -/
theorem threeCallGap_eval (w : Nat) (hw : 0 < w) : threeCallGap w = (0, w) := by
  have h1 : nextAdmitTime 2 w [] 0 = 0 := by
    simp [nextAdmitTime, bestAdmit, feasible, countInWindow]
  have h2 : nextAdmitTime 2 w [0] 0 = 0 := by
    simp [nextAdmitTime, bestAdmit, feasible, countInWindow,
      List.countP_cons, hw]
  have h3 : nextAdmitTime 2 w [0, 0] 0 = w := by
    simp [nextAdmitTime, bestAdmit, feasible, countInWindow,
      List.countP_cons, hw]
  simp [threeCallGap, RateLimiter.acquire, h1, h2, h3]

/-- C3: the gate admits a request at an instant no earlier than the request
at which the trailing window holds strictly fewer than `max_requests`
recorded calls, records exactly that instant, and thereby keeps the count
of recorded calls within any trailing window at or below `max_requests`;
in the concrete scenario of three back-to-back calls with
`max_requests = 2`, the third admission is a full window after the
first. -/
theorem rate_limiter_window_bound (maxReq window : Nat) (calls : List Nat)
    (now : Nat) (hmax : 1 ≤ maxReq) (hw : 0 < window)
    (hcalls : ∀ s ∈ calls, s ≤ now)
    (hinv : ∀ t, countInWindow window calls t ≤ maxReq) :
    now ≤ nextAdmitTime maxReq window calls now ∧
    countInWindow window calls (nextAdmitTime maxReq window calls now) < maxReq ∧
    (RateLimiter.acquire ⟨maxReq, window, calls⟩ now).2.calls =
      nextAdmitTime maxReq window calls now :: calls ∧
    (∀ t, countInWindow window
      (nextAdmitTime maxReq window calls now :: calls) t ≤ maxReq) ∧
    (threeCallGap window).1 = 0 ∧
    window ≤ (threeCallGap window).2 - (threeCallGap window).1 := by
  obtain ⟨hge, hlt⟩ := nextAdmitTime_feasible maxReq window calls now hmax hcalls
  refine ⟨hge, hlt, rfl, ?_, ?_, ?_⟩
  · intro t
    rw [countInWindow, List.countP_cons]
    by_cases hin : (decide (nextAdmitTime maxReq window calls now ≤ t) &&
        decide (t < nextAdmitTime maxReq window calls now + window)) = true
    · have hTt : nextAdmitTime maxReq window calls now ≤ t := by
        rw [Bool.and_eq_true] at hin
        exact of_decide_eq_true hin.1
      have hmono : calls.countP
          (fun s => decide (s ≤ t) && decide (t < s + window)) ≤
          calls.countP (fun s =>
            decide (s ≤ nextAdmitTime maxReq window calls now) &&
            decide (nextAdmitTime maxReq window calls now < s + window)) := by
        refine countP_le_of_imp calls ?_
        intro a ha hpa
        rw [Bool.and_eq_true] at hpa
        have h2 : t < a + window := of_decide_eq_true hpa.2
        have h1 : a ≤ nextAdmitTime maxReq window calls now :=
          le_trans (hcalls a ha) hge
        simp only [Bool.and_eq_true, decide_eq_true_eq]
        omega
      have hlt2 : calls.countP
          (fun s =>
            decide (s ≤ nextAdmitTime maxReq window calls now) &&
            decide (nextAdmitTime maxReq window calls now < s + window)) < maxReq := by
        have hc := hlt
        rw [countInWindow] at hc
        exact hc
      rw [hin]
      have hone : (if (true : Bool) = true then (1 : Nat) else 0) = 1 := rfl
      rw [hone]
      omega
    · have hin0 : (decide (nextAdmitTime maxReq window calls now ≤ t) &&
          decide (t < nextAdmitTime maxReq window calls now + window)) = false := by
        rw [← Bool.not_eq_true]
        exact hin
      rw [hin0]
      have hzero : (if (false : Bool) = true then (1 : Nat) else 0) = 0 := rfl
      rw [hzero]
      have hc := hinv t
      rw [countInWindow] at hc
      omega
  · rw [threeCallGap_eval window hw]
  · rw [threeCallGap_eval window hw]
    omega

/-- C3 witness: with a unit window and an empty history, the admission of a
fresh request is immediate and recorded, and in the three-call scenario the
third admission is a full window after the first. -/
theorem rate_limiter_window_bound_witness :
    (threeCallGap 1).1 = 0 ∧ 1 ≤ (threeCallGap 1).2 - (threeCallGap 1).1 := by
  have h := rate_limiter_window_bound 2 1 [] 0 (by omega) (by omega)
    (by intro s hs; simp at hs)
    (by intro t; simp [countInWindow])
  exact ⟨h.2.2.2.2.1, h.2.2.2.2.2⟩

end EI
